import Mathlib

/-!
Verification of the behavioural-analytics subsystem of the MeroBazaar
backend (event tracking, interaction scoring, RFM segmentation, demand
forecasting, dynamic pricing, recommendations).

The definitions below are a shallow embedding of the JavaScript source:

* `src/models/UserBehavior.js` — event / interaction schemas and
  `calculateScore`;
* `src/middleware/trackingMiddleware.js` — `updateInteractionScore`,
  `isDuplicateView`, `trackEvent`;
* `src/controllers/analyticsController.js` — `trackBatchEvents`,
  `getRecommendations`, `getVendorCustomerSegments` /
  `getAdminCustomerSegments`, `getVendorDemandForecasts`,
  `getVendorPricingSuggestions`;
* `src/services/recommendationService.js` —
  `getPersonalizedRecommendations`.

JavaScript numbers are embedded as `ℚ` (for money / averages) and `ℤ` /
`ℕ` (for counts and timestamps); `Math.floor`, `Math.ceil` and
`Math.round` become `jsFloor`, `jsCeil`, `jsRound`.  Fallible database
calls are modelled with `Except` / `Bool`-valued oracles passed as
parameters; the transcendental `Math.pow` and `Math.sqrt` are abstracted
as function parameters, since no claim depends on their values.
-/

/-- JavaScript `Math.floor` on an exact rational. -/
def jsFloor (x : ℚ) : ℤ := ⌊x⌋

/-- JavaScript `Math.ceil` on an exact rational. -/
def jsCeil (x : ℚ) : ℤ := ⌈x⌉

/-- JavaScript `Math.round` (round half towards positive infinity). -/
def jsRound (x : ℚ) : ℤ := ⌊x + 1/2⌋

/-- Event kinds accepted by the tracking pipeline: the `eventType` enum of
`userEventSchema` in `src/models/UserBehavior.js`. -/
inductive EventType where
  | view
  | click
  | add_to_cart
  | remove_from_cart
  | purchase
  | search
  | wishlist_add
  | wishlist_remove
deriving DecidableEq, Repr

/-- Optional payload fields of an incoming event that
`updateInteractionScore` reads (`eventData.quantity`,
`eventData.timeOnPage`).  An absent JavaScript field is `none`. -/
structure EventData where
  quantity : Option ℤ := none
  timeOnPage : Option ℤ := none
deriving DecidableEq, Repr

/-- JavaScript `eventData.quantity || 1`: an absent or zero (falsy)
quantity yields 1. -/
def jsOrOne : Option ℤ → ℤ
  | none => 1
  | some q => if q = 0 then 1 else q

/-- JavaScript `if (eventData.timeOnPage) ... += eventData.timeOnPage`:
the increment is skipped when the field is absent or zero (falsy). -/
def jsTimeOrZero : Option ℤ → ℤ
  | none => 0
  | some t => if t = 0 then 0 else t

/-- One `UserProductInteraction` document: the per-(user, product)
aggregate of `src/models/UserBehavior.js` (counts, cumulative view time
and the derived `interactionScore`). -/
structure Interaction where
  viewCount : ℤ := 0
  clickCount : ℤ := 0
  cartAddCount : ℤ := 0
  purchaseCount : ℤ := 0
  wishlistCount : ℤ := 0
  totalTimeViewed : ℤ := 0
  interactionScore : ℤ := 0
deriving DecidableEq, Repr

/-- A freshly upserted interaction document, with the schema defaults
(all counters and the score are 0). -/
def Interaction.init : Interaction := {}

/-- Method `calculateScore` of `userProductInteractionSchema`
(`src/models/UserBehavior.js` lines 112-130): recomputes
`interactionScore` from the counters with the fixed weights
view 1, click 2, cartAdd 3, wishlist 3, purchase 5. -/
def calculateScore (s : Interaction) : Interaction :=
  { s with interactionScore :=
      s.viewCount * 1 + s.clickCount * 2 + s.cartAddCount * 3 +
      s.wishlistCount * 3 + s.purchaseCount * 5 }

/-- The `$inc` update built by the `switch (eventType)` of
`updateInteractionScore` (`src/middleware/trackingMiddleware.js`
lines 105-127), applied to the current document. -/
def applyIncrement (s : Interaction) (eventType : EventType)
    (eventData : EventData) : Interaction :=
  match eventType with
  | .view =>
      { s with viewCount := s.viewCount + 1,
               totalTimeViewed :=
                 s.totalTimeViewed + jsTimeOrZero eventData.timeOnPage }
  | .click => { s with clickCount := s.clickCount + 1 }
  | .add_to_cart => { s with cartAddCount := s.cartAddCount + 1 }
  | .purchase =>
      { s with purchaseCount := s.purchaseCount + jsOrOne eventData.quantity }
  | .wishlist_add => { s with wishlistCount := s.wishlistCount + 1 }
  | .wishlist_remove => { s with wishlistCount := s.wishlistCount - 1 }
  | _ => s

/-- Function `updateInteractionScore` of
`src/middleware/trackingMiddleware.js` (lines 97-148): the upserted
document is incremented per event type and then `calculateScore` is run
and the document saved. -/
def updateInteractionScore (s : Interaction) (eventType : EventType)
    (eventData : EventData) : Interaction :=
  calculateScore (applyIncrement s eventType eventData)

/-- A whole sequence of qualifying events processed one at a time by
`updateInteractionScore`, starting from document `s`. -/
def processEvents (s : Interaction) (events : List (EventType × EventData)) :
    Interaction :=
  events.foldl (fun st e => updateInteractionScore st e.1 e.2) s

/-- One stored `UserEvent` document, restricted to the fields that the
deduplication query reads (`user`, `sessionId`, `eventType`, `product`,
`timestamp`, the latter in milliseconds since the epoch). -/
structure StoredEvent where
  user : Option ℕ
  sessionId : ℕ
  eventType : EventType
  product : Option ℕ
  timestamp : ℤ
deriving DecidableEq, Repr

/-- Constant `VIEW_DEDUP_WINDOW_MINUTES` of
`src/middleware/trackingMiddleware.js`. -/
def VIEW_DEDUP_WINDOW_MINUTES : ℤ := 30

/-- The identity clause of the deduplication query: `query.user = userId`
when a user id is supplied, else `query.sessionId = sessionId`. -/
def matchesIdentity (sessionId : ℕ) (userId : Option ℕ) (e : StoredEvent) :
    Bool :=
  match userId with
  | some u => e.user == some u
  | none => e.sessionId == sessionId

/-- Function `isDuplicateView` of `src/middleware/trackingMiddleware.js`
(lines 150-174): the `UserEvent.findOne` query is embedded as an
existence check over the event store. -/
def isDuplicateView (store : List StoredEvent) (now : ℤ) (sessionId : ℕ)
    (productId : ℕ) (userId : Option ℕ) : Bool :=
  let windowStart := now - VIEW_DEDUP_WINDOW_MINUTES * 60 * 1000
  store.any fun e =>
    e.product == some productId && e.eventType == EventType.view &&
      decide (windowStart ≤ e.timestamp) && matchesIdentity sessionId userId e

/-- One element of the `events` array sent to the batch tracking
endpoint, restricted to the fields the dedup gate reads. -/
structure BatchItem where
  eventType : EventType
  productId : Option ℕ
deriving DecidableEq, Repr

/-- The `UserEvent` document written for a batch item by `trackEvent`
(`user` and `sessionId` come from the request, the timestamp from the
schema default `Date.now`). -/
def mkStoredEvent (userId : Option ℕ) (sessionId : ℕ) (now : ℤ)
    (it : BatchItem) : StoredEvent :=
  { user := userId, sessionId := sessionId, eventType := it.eventType,
    product := it.productId, timestamp := now }

/-- One item of `trackBatchEvents` (`src/controllers/analyticsController.js`
lines 82-110) in the failure-free sequential model: a `view` event with a
product id is dropped when `isDuplicateView` answers true, every other
event is appended to the store. -/
def processItem (userId : Option ℕ) (sessionId : ℕ) (now : ℤ)
    (store : List StoredEvent) (it : BatchItem) : List StoredEvent :=
  match it.productId, it.eventType with
  | some pid, EventType.view =>
      if isDuplicateView store now sessionId pid userId then store
      else store ++ [mkStoredEvent userId sessionId now it]
  | _, _ => store ++ [mkStoredEvent userId sessionId now it]

/-- Outcome of one batch item once the dedup gate has passed: the event
write succeeded (`trackEvent` returned the event), the write failed
(`trackEvent` caught the error and returned null), or the item was
skipped as a duplicate view. -/
inductive ItemOutcome where
  | written
  | writeFailed
  | skippedDuplicate
deriving DecidableEq, Repr

/-- One item of `trackBatchEvents` in the fallible model.  `dedup` is the
store read performed by `isDuplicateView` (which has no try/catch, so an
error propagates); `write` is `trackEvent`, whose internal try/catch
turns a write failure into a null result rather than an error. -/
def processBatchItem (dedup : BatchItem → Except String Bool)
    (write : BatchItem → Bool) (it : BatchItem) :
    Except String ItemOutcome :=
  match it.productId, it.eventType with
  | some _, EventType.view =>
      match dedup it with
      | .error e => .error e
      | .ok true => .ok .skippedDuplicate
      | .ok false => .ok (if write it then .written else .writeFailed)
  | _, _ => .ok (if write it then .written else .writeFailed)

/-- The `Promise.all` over the mapped batch items, together with the
`tracked` (non-null results) and `skippedDuplicates` counters: if any
item rejects, the whole batch rejects. -/
def runBatch (dedup : BatchItem → Except String Bool)
    (write : BatchItem → Bool) : List BatchItem → Except String (ℕ × ℕ)
  | [] => .ok (0, 0)
  | it :: rest =>
      match processBatchItem dedup write it, runBatch dedup write rest with
      | .error e, _ => .error e
      | .ok _, .error e => .error e
      | .ok o, .ok (t, s) =>
          .ok (t + (if o = ItemOutcome.written then 1 else 0),
               s + (if o = ItemOutcome.skippedDuplicate then 1 else 0))

/-- The JSON body of a successful `POST /api/analytics/track/batch`
response. -/
structure BatchResponse where
  success : Bool
  tracked : ℕ
  skippedDuplicates : ℕ
  total : ℕ
deriving DecidableEq, Repr

/-- Controller `trackBatchEvents` of
`src/controllers/analyticsController.js` (lines 69-120): an empty array
is a 400 error; otherwise all items are processed and the counters
returned.  An uncaught rejection of any item (via `asyncHandler`) fails
the whole request. -/
def trackBatchEvents (dedup : BatchItem → Except String Bool)
    (write : BatchItem → Bool) (events : List BatchItem) :
    Except String BatchResponse :=
  if events.length = 0 then .error "Events array is required"
  else
    match runBatch dedup write events with
    | .error e => .error e
    | .ok (t, s) =>
        .ok { success := true, tracked := t, skippedDuplicates := s,
              total := events.length }

/-- Number of batch items whose event write succeeds (their `trackEvent`
result is non-null), assuming their dedup reads succeed. -/
def countWritten (dedup : BatchItem → Except String Bool)
    (write : BatchItem → Bool) : List BatchItem → ℕ
  | [] => 0
  | it :: rest =>
      (match processBatchItem dedup write it with
        | .ok .written => 1
        | _ => 0) + countWritten dedup write rest

/-- Number of batch items skipped as duplicate views. -/
def countSkipped (dedup : BatchItem → Except String Bool)
    (write : BatchItem → Bool) : List BatchItem → ℕ
  | [] => 0
  | it :: rest =>
      (match processBatchItem dedup write it with
        | .ok .skippedDuplicate => 1
        | _ => 0) + countSkipped dedup write rest

/-- Aggregate built per customer by the segmentation controllers
(`totalOrders`, `totalSpent` and the derived `daysSinceLastOrder`).  A
customer appears in the map only after contributing at least one order,
so `totalOrders ≥ 1` for every listed customer. -/
structure CustomerAgg where
  totalOrders : ℤ
  totalSpent : ℚ
  daysSinceLastOrder : ℤ
deriving DecidableEq, Repr

/-- JavaScript `Math.max(...customers.map(c => c.totalOrders), 1)`. -/
def maxFrequencyOf (customers : List CustomerAgg) : ℤ :=
  customers.foldr (fun c m => max c.totalOrders m) 1

/-- JavaScript `Math.max(...customers.map(c => c.totalSpent), 1)`. -/
def maxMonetaryOf (customers : List CustomerAgg) : ℚ :=
  customers.foldr (fun c m => max c.totalSpent m) 1

/-- Recency sub-score (`src/controllers/analyticsController.js`
lines 622-625 and 1368-1371), with `maxRecency = 365`. -/
def recencyScoreOf (daysSinceLastOrder : ℤ) : ℤ :=
  max 1 (min 5 (5 - jsFloor ((daysSinceLastOrder : ℚ) / 365 * 5)))

/-- Frequency sub-score (lines 626-629 and 1372-1375). -/
def frequencyScoreOf (totalOrders maxFrequency : ℤ) : ℤ :=
  max 1 (min 5 (jsCeil ((totalOrders : ℚ) / (maxFrequency : ℚ) * 5)))

/-- Monetary sub-score (lines 630-633 and 1376-1379). -/
def monetaryScoreOf (totalSpent maxMonetary : ℚ) : ℤ :=
  max 1 (min 5 (jsCeil (totalSpent / maxMonetary * 5)))

/-- The eight segment labels assigned by the segmentation decision
table. -/
inductive Segment where
  | champions
  | loyalCustomers
  | potentialLoyalists
  | newCustomers
  | atRisk
  | cantLoseThem
  | hibernating
  | needAttention
deriving DecidableEq, Repr

/-- The `if / else if` segment decision chain, identical in
`getVendorCustomerSegments` (lines 636-654) and
`getAdminCustomerSegments` (lines 1382-1392) of
`src/controllers/analyticsController.js`. -/
def assignSegment (rfmScore recencyScore frequencyScore monetaryScore : ℤ) :
    Segment :=
  if rfmScore ≥ 13 then .champions
  else if rfmScore ≥ 10 ∧ recencyScore ≥ 4 then .loyalCustomers
  else if frequencyScore ≥ 4 then .potentialLoyalists
  else if recencyScore ≥ 4 ∧ frequencyScore ≤ 2 then .newCustomers
  else if recencyScore ≤ 2 ∧ frequencyScore ≥ 3 then .atRisk
  else if recencyScore ≤ 2 ∧ monetaryScore ≥ 3 then .cantLoseThem
  else if recencyScore ≤ 2 then .hibernating
  else .needAttention

/-- The RFM fields attached to one customer by the segmentation map. -/
structure ScoredCustomer where
  recencyScore : ℤ
  frequencyScore : ℤ
  monetaryScore : ℤ
  rfmScore : ℤ
  segment : Segment
deriving DecidableEq, Repr

/-- Scoring of one customer against the population maxima, as in the
`customers.map` body of both segmentation controllers. -/
def scoreCustomer (maxFrequency : ℤ) (maxMonetary : ℚ) (c : CustomerAgg) :
    ScoredCustomer :=
  let r := recencyScoreOf c.daysSinceLastOrder
  let f := frequencyScoreOf c.totalOrders maxFrequency
  let m := monetaryScoreOf c.totalSpent maxMonetary
  { recencyScore := r, frequencyScore := f, monetaryScore := m,
    rfmScore := r + f + m, segment := assignSegment (r + f + m) r f m }

/-- The whole segmentation pass over the customer population. -/
def segmentCustomers (customers : List CustomerAgg) : List ScoredCustomer :=
  customers.map (scoreCustomer (maxFrequencyOf customers) (maxMonetaryOf customers))

/-- Plain population maximum of total spend, with no lower bound: the
quantity named `maxTotalSpent` in claim C4. -/
def plainMaxSpent (customers : List CustomerAgg) : ℚ :=
  customers.foldr (fun c m => max c.totalSpent m) 0

/-- Plain population maximum of order count: the quantity named
`maxOrderCountAcrossCustomers` in claim C4. -/
def plainMaxOrders (customers : List CustomerAgg) : ℤ :=
  customers.foldr (fun c m => max c.totalOrders m) 0

/-- Monetary sub-score as claim C4 words it: the divisor is the
population maximum of total spend, "a population maximum of zero is
replaced by 1". -/
def monetaryScoreClaimed (totalSpent popMaxSpent : ℚ) : ℤ :=
  let divisor := if popMaxSpent = 0 then 1 else popMaxSpent
  max 1 (min 5 (jsCeil (totalSpent / divisor * 5)))

/-- One bucket of the per-day sales map of a product (quantity and
revenue summed over the day's non-cancelled order items). -/
structure DailySale where
  quantity : ℚ
  revenue : ℚ
deriving DecidableEq, Repr

/-- Product fields read by the forecaster (`price`, `stock`). -/
structure ProductInfo where
  price : ℚ
  stock : ℚ
deriving DecidableEq, Repr

/-- JavaScript `array.slice(-n)`: the last `n` elements (the whole array
when it is shorter). -/
def jsSliceLast (n : ℕ) (l : List DailySale) : List DailySale :=
  l.drop (l.length - n)

/-- JavaScript `array.slice(-a, -b)` for `a ≥ b`: the elements from
index `max(0, length − a)` (inclusive) to `max(0, length − b)`
(exclusive). -/
def jsSliceNeg (a b : ℕ) (l : List DailySale) : List DailySale :=
  (l.drop (l.length - a)).take ((l.length - b) - (l.length - a))

/-- JavaScript `reduce((sum, d) => sum + d.quantity, 0)`. -/
def sumQuantity (l : List DailySale) : ℚ :=
  l.foldl (fun sum d => sum + d.quantity) 0

/-- The `avgDailySales` of `getVendorDemandForecasts` (lines 801-804):
mean quantity over the last 30 observed sale days (days without sales
are absent from the bucket map, not zero-filled). -/
def avgDailySalesOf (salesArray : List DailySale) : ℚ :=
  let recentSales := jsSliceLast 30 salesArray
  sumQuantity recentSales / (recentSales.length : ℚ)

/-- Mean of the last 15 observed sale days (`lastHalfAvg`,
lines 807-813). -/
def lastHalfAvgOf (salesArray : List DailySale) : ℚ :=
  let lastHalf := jsSliceLast 15 salesArray
  if lastHalf.length > 0 then sumQuantity lastHalf / (lastHalf.length : ℚ)
  else 0

/-- Mean of the preceding 15 observed sale days, defaulting to the
recent mean when that slice is empty (`prevHalfAvg`, lines 814-817). -/
def prevHalfAvgOf (salesArray : List DailySale) : ℚ :=
  let prevHalf := jsSliceNeg 30 15 salesArray
  if prevHalf.length > 0 then sumQuantity prevHalf / (prevHalf.length : ℚ)
  else lastHalfAvgOf salesArray

/-- Trend percentage of the forecaster (lines 819-826): set only when
the prior mean is positive, otherwise left at 0. -/
def forecastTrendPctOf (salesArray : List DailySale) : ℚ :=
  if prevHalfAvgOf salesArray > 0 then
    (lastHalfAvgOf salesArray - prevHalfAvgOf salesArray) /
      prevHalfAvgOf salesArray * 100
  else 0

/-- Trend label of the forecaster, literal strings `increasing`,
`decreasing`, `stable` and `insufficient_data`. -/
inductive TrendLabel where
  | increasing
  | decreasing
  | stable
  | insufficient_data
deriving DecidableEq, Repr

/-- Trend classification of the forecaster (thresholds plus and minus
15, applied only when the prior mean is positive). -/
def forecastTrendOf (salesArray : List DailySale) : TrendLabel :=
  if prevHalfAvgOf salesArray > 0 then
    if forecastTrendPctOf salesArray > 15 then .increasing
    else if forecastTrendPctOf salesArray < -15 then .decreasing
    else .stable
  else .stable

/-- The `trendMultiplier` (line 830): `1 + trendPercentage / 100 * 0.1`. -/
def trendMultiplierOf (salesArray : List DailySale) : ℚ :=
  1 + forecastTrendPctOf salesArray / 100 * (1 / 10)

/-- One forecast-curve entry (`date` is kept as the day offset `i`). -/
structure ForecastDay where
  dayOffset : ℕ
  predictedQuantity : ℤ
  predictedRevenue : ℚ
deriving DecidableEq, Repr

/-- The weekend factor for forecast day `i` (lines 836-838):
`getDay()` of today-plus-`i`, where `todayDow` is today's day of week
(0 = Sunday ... 6 = Saturday); Saturday and Sunday get 0.7. -/
def weekendFactorOf (todayDow : ℤ) (i : ℕ) : ℚ :=
  let dayOfWeek := (todayDow + (i : ℤ)) % 7
  if dayOfWeek = 0 ∨ dayOfWeek = 6 then 7 / 10 else 1

/-- Forecast entry for day `i` (lines 832-851).  `powf` abstracts the
transcendental `Math.pow` used for `trendMultiplier ** (i / 7)`. -/
def mkForecastDay (powf : ℚ → ℚ → ℚ) (todayDow : ℤ) (price : ℚ)
    (avgDailySales trendMultiplier : ℚ) (i : ℕ) : ForecastDay :=
  let weekendFactor := weekendFactorOf todayDow i
  let predictedQuantity :=
    max 0 (jsRound (avgDailySales * powf trendMultiplier ((i : ℚ) / 7) *
      weekendFactor))
  { dayOffset := i, predictedQuantity := predictedQuantity,
    predictedRevenue := (predictedQuantity : ℚ) * price }

/-- The full 14-day forecast curve of a product. -/
def forecastCurve (powf : ℚ → ℚ → ℚ) (todayDow : ℤ) (price : ℚ)
    (avgDailySales trendMultiplier : ℚ) : List ForecastDay :=
  (List.range 14).map
    (fun k => mkForecastDay powf todayDow price avgDailySales
      trendMultiplier (k + 1))

/-- Stock status relative to the summed 14-day forecast demand
(lines 869-879). -/
inductive StockStatus where
  | adequate
  | low
  | critical
deriving DecidableEq, Repr

/-- Sample variance term of the last 30 observed days (lines 854-861):
0 when at most one observation exists. -/
def varianceOf (salesArray : List DailySale) : ℚ :=
  let recentSales := jsSliceLast 30 salesArray
  if recentSales.length > 1 then
    (recentSales.foldl
      (fun sum d => sum + (d.quantity - avgDailySalesOf salesArray) ^ 2) 0) /
      (recentSales.length : ℚ)
  else 0

/-- One record of the `forecasts` response array, restricted to the
analytics fields (the product and raw history are carried alongside in
the source).  Fields absent from the insufficient-data record are
`Option`s. -/
structure ForecastRecord where
  trend : TrendLabel
  confidence : ℤ
  forecast : Option (List ForecastDay)
  avgDailySales : Option ℚ
  trendPercentage : Option ℚ
  totalForecastDemand : Option ℤ
  stockStatus : Option StockStatus
deriving Repr

/-- Per-product body of the `Object.values(productSalesMap).forEach` of
`getVendorDemandForecasts` (lines 784-895).  `powf` abstracts
`Math.pow`, `sqrtf` abstracts `Math.sqrt`. -/
def forecastProduct (powf : ℚ → ℚ → ℚ) (sqrtf : ℚ → ℚ) (todayDow : ℤ)
    (p : ProductInfo) (salesArray : List DailySale) : ForecastRecord :=
  if salesArray.length < 3 then
    { trend := .insufficient_data, confidence := 0, forecast := none,
      avgDailySales := none, trendPercentage := none,
      totalForecastDemand := none, stockStatus := none }
  else
    let avgDailySales := avgDailySalesOf salesArray
    let trendMultiplier := trendMultiplierOf salesArray
    let forecastDays :=
      forecastCurve powf todayDow p.price avgDailySales trendMultiplier
    let stdDev := sqrtf (varianceOf salesArray)
    let coefficient := if avgDailySales > 0 then stdDev / avgDailySales else 1
    let confidence := max 0 (min 100 (jsRound ((1 - coefficient) * 100)))
    let next14DaysDemand : ℤ :=
      forecastDays.foldl (fun sum d => sum + d.predictedQuantity) 0
    let stockStatus :=
      if p.stock ≥ (next14DaysDemand : ℚ) * (12 / 10) then StockStatus.adequate
      else if p.stock ≥ (next14DaysDemand : ℚ) then StockStatus.low
      else StockStatus.critical
    { trend := forecastTrendOf salesArray, confidence := confidence,
      forecast := some forecastDays,
      avgDailySales := some ((jsRound (avgDailySales * 10) : ℚ) / 10),
      trendPercentage := some ((jsRound (forecastTrendPctOf salesArray * 10) : ℚ) / 10),
      totalForecastDemand := some next14DaysDemand,
      stockStatus := some stockStatus }

/-- Per-product metrics accumulated by `getVendorPricingSuggestions`
(`src/controllers/analyticsController.js` lines 959-1005): current
price and stock, trailing 60-day view count and units sold, and the
last-30-days / prior-30-days unit-sales split. -/
structure PricingInput where
  price : ℚ
  stock : ℚ
  views : ℚ
  totalSold : ℚ
  lastThirtyDaysSales : ℚ
  prevThirtyDaysSales : ℚ
deriving DecidableEq, Repr

/-- Demand classification of the pricing advisor. -/
inductive DemandTrend where
  | high
  | low
  | stable
deriving DecidableEq, Repr

/-- Rationale strings of the five pricing rules (plus the empty default
rationale). -/
inductive PriceReason where
  | highDemandLimitedStock
  | lowDemandExcessInventory
  | lowConversionRate
  | strongConversionRate
  | criticalLowStock
  | noChange
deriving DecidableEq, Repr

/-- Priority tiers of a pricing suggestion. -/
inductive PriceTier where
  | high
  | medium
  | low
deriving DecidableEq, Repr

/-- Conversion rate of the pricing advisor (line 1008):
`totalSold / views * 100`, 0 when there are no views. -/
def conversionRateOf (inp : PricingInput) : ℚ :=
  if inp.views > 0 then inp.totalSold / inp.views * 100 else 0

/-- Demand-trend computation of the pricing advisor (lines 1010-1023):
`(last30 − prev30) / prev30 × 100` with thresholds plus and minus 20
when the prior window is positive; otherwise demand is `high` with
trend 100 when only the recent window has sales, else `stable` with 0.
Returns (classification, trendPercentage). -/
def pricingDemandOf (lastThirtyDaysSales prevThirtyDaysSales : ℚ) :
    DemandTrend × ℚ :=
  if prevThirtyDaysSales > 0 then
    let trendPercentage :=
      (lastThirtyDaysSales - prevThirtyDaysSales) / prevThirtyDaysSales * 100
    (if trendPercentage > 20 then DemandTrend.high
     else if trendPercentage < -20 then DemandTrend.low
     else DemandTrend.stable, trendPercentage)
  else if lastThirtyDaysSales > 0 then (DemandTrend.high, 100)
  else (DemandTrend.stable, 0)

/-- The `avgDailySales` of the pricing advisor (line 1026):
`lastThirtyDaysSales / 30`. -/
def pricingAvgDailySalesOf (inp : PricingInput) : ℚ :=
  inp.lastThirtyDaysSales / 30

/-- The `daysOfStock` of the pricing advisor (line 1027), with the 999
sentinel when average daily sales are zero. -/
def daysOfStockOf (inp : PricingInput) : ℚ :=
  if pricingAvgDailySalesOf inp > 0 then inp.stock / pricingAvgDailySalesOf inp
  else 999

/-- The `suggestion` object of one product's pricing record.
`recommendedPrice` and `potentialRevenue` keep the exact value the
source computes (both pass through `Math.round`);
`adjustmentPercentage` is the internal unrounded value (the response
additionally rounds it to one decimal, which never changes whether it
is zero since every fired rule adjusts by at least 5). -/
structure PriceSuggestion where
  recommendedPrice : ℚ
  adjustmentPercentage : ℚ
  reason : PriceReason
  priority : PriceTier
  potentialRevenue : ℚ
deriving DecidableEq, Repr

/-- Demand classification of a product's metrics (`demandTrend`). -/
def pricingDemandTrendOf (inp : PricingInput) : DemandTrend :=
  (pricingDemandOf inp.lastThirtyDaysSales inp.prevThirtyDaysSales).1

/-- Trend percentage of a product's metrics (`trendPercentage`). -/
def pricingTrendPctOf (inp : PricingInput) : ℚ :=
  (pricingDemandOf inp.lastThirtyDaysSales inp.prevThirtyDaysSales).2

/-- Condition of pricing rule 1 (line 1036): high demand and fewer than
14 days of stock. -/
def pricingRule1Cond (inp : PricingInput) : Prop :=
  pricingDemandTrendOf inp = DemandTrend.high ∧ daysOfStockOf inp < 14

/-- Condition of pricing rule 2 (line 1045): low demand and more than
60 days of stock. -/
def pricingRule2Cond (inp : PricingInput) : Prop :=
  pricingDemandTrendOf inp = DemandTrend.low ∧ daysOfStockOf inp > 60

/-- Condition of pricing rule 3 (line 1057): more than 50 views and a
conversion rate below 1 percent. -/
def pricingRule3Cond (inp : PricingInput) : Prop :=
  inp.views > 50 ∧ conversionRateOf inp < 1

/-- Condition of pricing rule 4 (line 1064): conversion rate above 5
percent and demand not low. -/
def pricingRule4Cond (inp : PricingInput) : Prop :=
  conversionRateOf inp > 5 ∧ pricingDemandTrendOf inp ≠ DemandTrend.low

/-- Condition of pricing rule 5 (line 1071): stock below 5 units with
average daily sales above one half. -/
def pricingRule5Cond (inp : PricingInput) : Prop :=
  inp.stock < 5 ∧ pricingAvgDailySalesOf inp > 1 / 2

instance (inp : PricingInput) : Decidable (pricingRule1Cond inp) :=
  inferInstanceAs (Decidable (_ ∧ _))

instance (inp : PricingInput) : Decidable (pricingRule2Cond inp) :=
  inferInstanceAs (Decidable (_ ∧ _))

instance (inp : PricingInput) : Decidable (pricingRule3Cond inp) :=
  inferInstanceAs (Decidable (_ ∧ _))

instance (inp : PricingInput) : Decidable (pricingRule4Cond inp) :=
  inferInstanceAs (Decidable (_ ∧ _))

instance (inp : PricingInput) : Decidable (pricingRule5Cond inp) :=
  inferInstanceAs (Decidable (_ ∧ _))

/-- Adjustment percentage of pricing rule 1:
`Math.min(15, Math.max(5, trendPercentage / 5))`. -/
def rule1Adjustment (inp : PricingInput) : ℚ :=
  min 15 (max 5 (pricingTrendPctOf inp / 5))

/-- Adjustment percentage of pricing rule 2:
`-Math.min(20, Math.max(5, Math.abs(trendPercentage) / 4))`. -/
def rule2Adjustment (inp : PricingInput) : ℚ :=
  -(min 20 (max 5 (|pricingTrendPctOf inp| / 4)))

/-- The five-rule `if / else if` chain of `getVendorPricingSuggestions`
(lines 1029-1105), producing the suggested price, adjustment
percentage, rationale and priority, followed by the `potentialRevenue`
computation. -/
def priceSuggestionFor (inp : PricingInput) : PriceSuggestion :=
  let core : ℚ × ℚ × PriceReason × PriceTier :=
    if pricingRule1Cond inp then
      (((jsRound (inp.price * (1 + rule1Adjustment inp / 100)) : ℚ)),
        rule1Adjustment inp, PriceReason.highDemandLimitedStock, PriceTier.high)
    else if pricingRule2Cond inp then
      (((jsRound (inp.price * (1 + rule2Adjustment inp / 100)) : ℚ)),
        rule2Adjustment inp, PriceReason.lowDemandExcessInventory, PriceTier.high)
    else if pricingRule3Cond inp then
      (((jsRound (inp.price * (9 / 10)) : ℚ)), -10,
        PriceReason.lowConversionRate, PriceTier.medium)
    else if pricingRule4Cond inp then
      (((jsRound (inp.price * (105 / 100)) : ℚ)), 5,
        PriceReason.strongConversionRate, PriceTier.low)
    else if pricingRule5Cond inp then
      (((jsRound (inp.price * (11 / 10)) : ℚ)), 10,
        PriceReason.criticalLowStock, PriceTier.high)
    else (inp.price, 0, PriceReason.noChange, PriceTier.low)
  { recommendedPrice := core.1,
    adjustmentPercentage := core.2.1,
    reason := core.2.2.1,
    priority := core.2.2.2,
    potentialRevenue :=
      if core.2.1 ≠ 0 then
        (jsRound ((core.1 - inp.price) * inp.lastThirtyDaysSales) : ℚ)
      else 0 }

/-- Trend-percentage convention claim C7 asserts the Pricing Advisor
uses, worded from the spec: the Demand Forecaster's before/after
comparison, where a missing prior window is replaced by the recent mean
(so the percentage is 0 whenever there is no prior data, and 0 when
both windows are 0). -/
def claimedPricingTrendPct (recentMean priorMean : ℚ) : ℚ :=
  let prior := if priorMean = 0 then recentMean else priorMean
  if prior > 0 then (recentMean - prior) / prior * 100 else 0

/-- Demand classification claim C7 asserts: thresholds plus and minus
20 applied to the claimed trend percentage. -/
def claimedPricingDemandOf (recentMean priorMean : ℚ) : DemandTrend × ℚ :=
  let trendPercentage := claimedPricingTrendPct recentMean priorMean
  (if trendPercentage > 20 then DemandTrend.high
   else if trendPercentage < -20 then DemandTrend.low
   else DemandTrend.stable, trendPercentage)

/-- The forecaster-side before/after comparison factored over its
inputs: recent mean and optional prior mean (`none` when the prior
15-day slice is empty, in which case the source substitutes the recent
mean; the percentage is computed only when the resulting prior mean is
positive).  This restates lines 814-826 of the forecaster with the two
means as parameters, for comparison with the pricing advisor. -/
def forecastComparisonPct (lastHalfAvg : ℚ) (prevHalfAvg : Option ℚ) : ℚ :=
  let prev := prevHalfAvg.getD lastHalfAvg
  if prev > 0 then (lastHalfAvg - prev) / prev * 100 else 0

/-- Response kinds of the recommendations endpoint (`type` field of the
JSON body). -/
inductive RecKind where
  | personalized
  | trending
  | seasonal
  | popularFallback
deriving DecidableEq, Repr

/-- Outcome of `GET /api/analytics/recommendations`: a successful JSON
body carrying a recommendation list, or a hard failure propagated to
the error middleware. -/
inductive RecResponse (R : Type) where
  | success (kind : RecKind) (recommendations : R)
  | failure (msg : String)
deriving DecidableEq, Repr

/-- The `type` query parameter; any value other than `trending` and
`seasonal` takes the `forYou` default branch of the switch. -/
inductive RecType where
  | trending
  | seasonal
  | forYou
deriving DecidableEq, Repr

/-- Service `getPersonalizedRecommendations` of
`src/services/recommendationService.js` (lines 27-120): the whole body
is wrapped in try/catch and the catch returns the popularity list, so
the service only rejects when the personalized computation and the
popularity query both fail.  `core` is the personalized computation,
`popular` the `getPopularProducts` query. -/
def recServicePersonalized {R : Type} (core popular : Except String R) :
    Except String R :=
  match core with
  | .ok r => .ok r
  | .error _ => popular

/-- Controller `getRecommendations` of
`src/controllers/analyticsController.js` (lines 127-176): the switch
over `type` runs inside a try/catch whose catch awaits
`getPopularProducts` once more and answers with a
`popular_fallback` success; a failure of that final query propagates
through `asyncHandler` as a hard failure. -/
def getRecommendations {R : Type} (t : RecType)
    (trendingQ seasonalQ core popular : Except String R) : RecResponse R :=
  let attempt : Except String (RecKind × R) :=
    match t with
    | .trending => trendingQ.map (fun r => (RecKind.trending, r))
    | .seasonal => seasonalQ.map (fun r => (RecKind.seasonal, r))
    | .forYou =>
        (recServicePersonalized core popular).map
          (fun r => (RecKind.personalized, r))
  match attempt with
  | .ok (k, r) => .success k r
  | .error _ =>
      match popular with
      | .ok f => .success .popularFallback f
      | .error e => .failure e

/-- Helper: after any single `updateInteractionScore` call the stored
score equals the weighted sum of the stored counters. -/
theorem updateInteractionScore_score (s : Interaction) (e : EventType)
    (d : EventData) :
    (updateInteractionScore s e d).interactionScore =
      (updateInteractionScore s e d).viewCount * 1 +
      (updateInteractionScore s e d).clickCount * 2 +
      (updateInteractionScore s e d).cartAddCount * 3 +
      (updateInteractionScore s e d).wishlistCount * 3 +
      (updateInteractionScore s e d).purchaseCount * 5 := by
  simp [updateInteractionScore, calculateScore]

/-- C1: after the Interaction Aggregator processes any nonempty sequence
of qualifying events via `updateInteractionScore`, the stored
`interactionScore` equals exactly
`1·viewCount + 2·clickCount + 3·cartAddCount + 3·wishlistCount +
5·purchaseCount` — the score is recomputed from the counts on every
update, so there is no drift from any starting document. -/
theorem interaction_score_invariant (s : Interaction)
    (events : List (EventType × EventData)) (hne : events ≠ []) :
    (processEvents s events).interactionScore =
      (processEvents s events).viewCount * 1 +
      (processEvents s events).clickCount * 2 +
      (processEvents s events).cartAddCount * 3 +
      (processEvents s events).wishlistCount * 3 +
      (processEvents s events).purchaseCount * 5 := by
  induction events generalizing s with
  | nil => exact absurd rfl hne
  | cons e rest ih =>
    rcases eq_or_ne rest [] with hr | hr
    · subst hr
      simpa [processEvents] using
        updateInteractionScore_score s e.1 e.2
    · simpa [processEvents] using
        ih (updateInteractionScore s e.1 e.2) hr

/-- Witness for C1 at a concrete event sequence. -/
theorem interaction_score_invariant_witness :
    ([(EventType.view, ({} : EventData)),
      (EventType.purchase, { quantity := some 2 }),
      (EventType.wishlist_add, {})] ≠ ([] : List (EventType × EventData))) ∧
    (processEvents Interaction.init
        [(EventType.view, {}), (EventType.purchase, { quantity := some 2 }),
         (EventType.wishlist_add, {})]).interactionScore =
      (processEvents Interaction.init
        [(EventType.view, {}), (EventType.purchase, { quantity := some 2 }),
         (EventType.wishlist_add, {})]).viewCount * 1 +
      (processEvents Interaction.init
        [(EventType.view, {}), (EventType.purchase, { quantity := some 2 }),
         (EventType.wishlist_add, {})]).clickCount * 2 +
      (processEvents Interaction.init
        [(EventType.view, {}), (EventType.purchase, { quantity := some 2 }),
         (EventType.wishlist_add, {})]).cartAddCount * 3 +
      (processEvents Interaction.init
        [(EventType.view, {}), (EventType.purchase, { quantity := some 2 }),
         (EventType.wishlist_add, {})]).wishlistCount * 3 +
      (processEvents Interaction.init
        [(EventType.view, {}), (EventType.purchase, { quantity := some 2 }),
         (EventType.wishlist_add, {})]).purchaseCount * 5 :=
  ⟨by decide,
   interaction_score_invariant Interaction.init
     [(EventType.view, {}), (EventType.purchase, { quantity := some 2 }),
      (EventType.wishlist_add, {})] (by decide)⟩

/-- C10 counterexample: a `purchase` event carrying an explicit quantity
of 0 increments `purchaseCount` by 1 (via the `eventData.quantity || 1`
falsiness default), not by the event's quantity 0 — so the claim that a
purchase increments the count by the event's quantity fails at this
input. -/
theorem purchase_quantity_zero_counterexample :
    (updateInteractionScore Interaction.init EventType.purchase
        { quantity := some 0 }).purchaseCount = 1 ∧
    (updateInteractionScore Interaction.init EventType.purchase
        { quantity := some 0 }).purchaseCount ≠
      Interaction.init.purchaseCount + 0 := by
  decide

/-- C10 (amended): `wishlist_remove` decrements `wishlistCount` by 1
with no lower bound at zero, so a removal without a matching prior add
drives `wishlistCount` to −1 and the recomputed `interactionScore` to
−3; a `purchase` event increments `purchaseCount` by the event's
quantity when that quantity is nonzero, and by 1 when the quantity is
missing or zero. -/
theorem wishlist_negative_and_purchase_quantity (s : Interaction)
    (q : ℤ) (hq : q ≠ 0) :
    (updateInteractionScore s EventType.wishlist_remove {}).wishlistCount =
      s.wishlistCount - 1 ∧
    (updateInteractionScore s EventType.purchase
        { quantity := some q }).purchaseCount = s.purchaseCount + q ∧
    (updateInteractionScore s EventType.purchase {}).purchaseCount =
      s.purchaseCount + 1 ∧
    (updateInteractionScore s EventType.purchase
        { quantity := some 0 }).purchaseCount = s.purchaseCount + 1 ∧
    (updateInteractionScore Interaction.init
        EventType.wishlist_remove {}).wishlistCount = -1 ∧
    (updateInteractionScore Interaction.init
        EventType.wishlist_remove {}).interactionScore = -3 := by
  refine ⟨?_, ?_, ?_, ?_, by decide, by decide⟩
  · simp [updateInteractionScore, calculateScore, applyIncrement]
  · simp [updateInteractionScore, calculateScore, applyIncrement, jsOrOne, hq]
  · simp [updateInteractionScore, calculateScore, applyIncrement, jsOrOne]
  · simp [updateInteractionScore, calculateScore, applyIncrement, jsOrOne]

/-- Witness for the amended C10 at a concrete state and quantity. -/
theorem wishlist_negative_and_purchase_quantity_witness :
    ((3 : ℤ) ≠ 0) ∧
    (updateInteractionScore Interaction.init EventType.purchase
        { quantity := some 3 }).purchaseCount =
      Interaction.init.purchaseCount + 3 :=
  ⟨by decide,
   (wishlist_negative_and_purchase_quantity Interaction.init 3
     (by decide)).2.1⟩

/-- Helper: the duplicate-view check for an authenticated caller is an
existence check on (product, view kind, window, user id), ignoring the
session. -/
theorem isDuplicateView_user_iff (store : List StoredEvent) (now : ℤ)
    (sid pid u : ℕ) :
    isDuplicateView store now sid pid (some u) = true ↔
      ∃ e ∈ store, e.product = some pid ∧ e.eventType = EventType.view ∧
        now - 30 * 60 * 1000 ≤ e.timestamp ∧ e.user = some u := by
  simp [isDuplicateView, List.any_eq_true, matchesIdentity,
    VIEW_DEDUP_WINDOW_MINUTES, and_assoc]

/-- Helper: the duplicate-view check for an anonymous caller is an
existence check on (product, view kind, window, session id). -/
theorem isDuplicateView_session_iff (store : List StoredEvent) (now : ℤ)
    (sid pid : ℕ) :
    isDuplicateView store now sid pid none = true ↔
      ∃ e ∈ store, e.product = some pid ∧ e.eventType = EventType.view ∧
        now - 30 * 60 * 1000 ≤ e.timestamp ∧ e.sessionId = sid := by
  simp [isDuplicateView, List.any_eq_true, matchesIdentity,
    VIEW_DEDUP_WINDOW_MINUTES, and_assoc]

/-- C9: the duplicate-view check answers true exactly when a `view`
event for the same product lies in the trailing 30 minutes of the
store, keyed by user id when one is supplied (regardless of session)
and by session id for anonymous callers; only `view` events are gated,
every other kind is always stored; hence, from an empty store, two view
submissions for a fixed identity and product within the window store
exactly one event and two submissions more than the window apart store
two. -/
theorem dedup_window_semantics :
    (∀ (store : List StoredEvent) (now : ℤ) (sid pid u : ℕ),
      isDuplicateView store now sid pid (some u) = true ↔
        ∃ e ∈ store, e.product = some pid ∧ e.eventType = EventType.view ∧
          now - 30 * 60 * 1000 ≤ e.timestamp ∧ e.user = some u) ∧
    (∀ (store : List StoredEvent) (now : ℤ) (sid pid : ℕ),
      isDuplicateView store now sid pid none = true ↔
        ∃ e ∈ store, e.product = some pid ∧ e.eventType = EventType.view ∧
          now - 30 * 60 * 1000 ≤ e.timestamp ∧ e.sessionId = sid) ∧
    (∀ (uid : Option ℕ) (sid : ℕ) (now : ℤ) (store : List StoredEvent)
        (it : BatchItem),
      it.eventType ≠ EventType.view ∨ it.productId = none →
      processItem uid sid now store it =
        store ++ [mkStoredEvent uid sid now it]) ∧
    (∀ (uid : Option ℕ) (sid pid : ℕ) (t1 t2 : ℤ),
      (t2 - t1 ≤ 30 * 60 * 1000 →
        (processItem uid sid t2
          (processItem uid sid t1 [] ⟨EventType.view, some pid⟩)
          ⟨EventType.view, some pid⟩).length = 1) ∧
      (30 * 60 * 1000 < t2 - t1 →
        (processItem uid sid t2
          (processItem uid sid t1 [] ⟨EventType.view, some pid⟩)
          ⟨EventType.view, some pid⟩).length = 2)) := by
  refine ⟨isDuplicateView_user_iff, isDuplicateView_session_iff, ?_, ?_⟩
  · rintro uid sid now store ⟨et, p⟩ (h | h)
    · rcases p with _ | p
      · cases et <;> rfl
      · cases et <;> first | rfl | exact absurd rfl h
    · simp only at h
      subst h
      cases et <;> rfl
  · intro uid sid pid t1 t2
    have hfirst :
        processItem uid sid t1 [] ⟨EventType.view, some pid⟩ =
          [mkStoredEvent uid sid t1 ⟨EventType.view, some pid⟩] := by
      simp [processItem, isDuplicateView]
    constructor
    · intro hwin
      rw [hfirst]
      have hdup :
          isDuplicateView
            [mkStoredEvent uid sid t1 ⟨EventType.view, some pid⟩] t2 sid pid
            uid = true := by
        rcases uid with _ | u
        · rw [isDuplicateView_session_iff]
          exact ⟨mkStoredEvent none sid t1 ⟨EventType.view, some pid⟩,
            by simp, rfl, rfl, by simpa [mkStoredEvent] using by omega, rfl⟩
        · rw [isDuplicateView_user_iff]
          exact ⟨mkStoredEvent (some u) sid t1 ⟨EventType.view, some pid⟩,
            by simp, rfl, rfl, by simpa [mkStoredEvent] using by omega, rfl⟩
      simp [processItem, hdup]
    · intro hfar
      rw [hfirst]
      have hdup :
          isDuplicateView
            [mkStoredEvent uid sid t1 ⟨EventType.view, some pid⟩] t2 sid pid
            uid = false := by
        rcases uid with _ | u
        · rw [Bool.eq_false_iff, Ne, isDuplicateView_session_iff]
          rintro ⟨e, he, -, -, hts, -⟩
          simp only [List.mem_singleton] at he
          subst he
          simp only [mkStoredEvent] at hts
          omega
        · rw [Bool.eq_false_iff, Ne, isDuplicateView_user_iff]
          rintro ⟨e, he, -, -, hts, -⟩
          simp only [List.mem_singleton] at he
          subst he
          simp only [mkStoredEvent] at hts
          omega
      simp [processItem, hdup]

/-- Witness for C9 at concrete identities, times and stores. -/
theorem dedup_window_semantics_witness :
    (isDuplicateView
        [{ user := some 4, sessionId := 9, eventType := EventType.view,
           product := some 7, timestamp := 1000 }] 2000 5 7 (some 4) = true ↔
      ∃ e ∈ [({ user := some 4, sessionId := 9,
                eventType := EventType.view, product := some 7,
                timestamp := 1000 } : StoredEvent)],
        e.product = some 7 ∧ e.eventType = EventType.view ∧
          2000 - 30 * 60 * 1000 ≤ e.timestamp ∧ e.user = some 4) ∧
    ((2000 : ℤ) - 1000 ≤ 30 * 60 * 1000 →
      (processItem (some 4) 9 2000
        (processItem (some 4) 9 1000 [] ⟨EventType.view, some 7⟩)
        ⟨EventType.view, some 7⟩).length = 1) ∧
    (processItem (some 4) 9 2000
        (processItem (some 4) 9 1000 [] ⟨EventType.view, some 7⟩)
        ⟨EventType.view, some 7⟩).length = 1 :=
  ⟨dedup_window_semantics.1
      [{ user := some 4, sessionId := 9, eventType := EventType.view,
         product := some 7, timestamp := 1000 }] 2000 5 7 4,
   (dedup_window_semantics.2.2.2 (some 4) 9 7 1000 2000).1,
   (dedup_window_semantics.2.2.2 (some 4) 9 7 1000 2000).1 (by decide)⟩

/-- A dedup oracle whose store read always fails. -/
def dedupAlwaysFails : BatchItem → Except String Bool :=
  fun _ => .error "store read failed"

/-- A dedup oracle that always succeeds answering "not a duplicate". -/
def dedupNeverDup : BatchItem → Except String Bool :=
  fun _ => .ok false

/-- A write oracle whose event writes always succeed. -/
def writeAlwaysOk : BatchItem → Bool := fun _ => true

/-- A write oracle that fails exactly on `click` events. -/
def writeFailsClicks : BatchItem → Bool :=
  fun it => it.eventType != EventType.click

/-- C2 counterexample: when the store read of the duplicate-view check
fails on the first (view) item of a two-item batch, the whole
`trackBatchEvents` request fails — the second item is not given a
response and no batch response is produced, contrary to the claimed
fail-open behaviour. -/
theorem batch_read_failure_counterexample :
    trackBatchEvents dedupAlwaysFails writeAlwaysOk
        [⟨EventType.view, some 1⟩, ⟨EventType.click, some 2⟩] =
      Except.error "store read failed" ∧
    trackBatchEvents dedupAlwaysFails writeAlwaysOk
        [⟨EventType.view, some 1⟩, ⟨EventType.click, some 2⟩] ≠
      Except.ok { success := true, tracked := 2, skippedDuplicates := 0,
                  total := 2 } := by
  refine ⟨rfl, fun h => ?_⟩
  rw [show trackBatchEvents dedupAlwaysFails writeAlwaysOk
        [⟨EventType.view, some 1⟩, ⟨EventType.click, some 2⟩] =
      Except.error "store read failed" from rfl] at h
  exact Except.noConfusion h

/-- Helper: an item whose dedup read succeeds never rejects. -/
theorem processBatchItem_ok (dedup : BatchItem → Except String Bool)
    (write : BatchItem → Bool) (it : BatchItem)
    (h : ∃ b, dedup it = .ok b) :
    ∃ o, processBatchItem dedup write it = .ok o := by
  obtain ⟨b, hb⟩ := h
  rcases it with ⟨et, p⟩
  rcases p with _ | p
  · cases et <;> exact ⟨_, rfl⟩
  · cases et <;> first
      | exact ⟨_, rfl⟩
      | · simp only [processBatchItem, hb]
          cases b
          · exact ⟨_, rfl⟩
          · exact ⟨_, rfl⟩

/-- Helper: when every dedup read succeeds, the mapped batch resolves
with the written and skipped counters. -/
theorem runBatch_ok (dedup : BatchItem → Except String Bool)
    (write : BatchItem → Bool) (events : List BatchItem)
    (h : ∀ it ∈ events, ∃ b, dedup it = .ok b) :
    runBatch dedup write events =
      .ok (countWritten dedup write events, countSkipped dedup write events) := by
  induction events with
  | nil => rfl
  | cons it rest ih =>
    obtain ⟨o, ho⟩ :=
      processBatchItem_ok dedup write it (h it (List.mem_cons_self it rest))
    have hrest := ih (fun x hx => h x (List.mem_cons_of_mem it hx))
    simp only [runBatch, countWritten, countSkipped, ho, hrest]
    cases o <;> simp [Nat.add_comm]

/-- C2 (amended): a store read failure inside the duplicate-view check
is not caught — it propagates and fails the entire batch request (see
the counterexample); only failures of the per-item event write are
isolated, because `trackEvent` catches them and returns null: whenever
every dedup read succeeds, the batch responds successfully with
`total` the batch size, `tracked` the number of items whose write
succeeded and `skippedDuplicates` the number of suppressed duplicate
views, regardless of which writes failed. -/
theorem batch_isolates_write_failures (dedup : BatchItem → Except String Bool)
    (write : BatchItem → Bool) (events : List BatchItem)
    (hne : events ≠ [])
    (h : ∀ it ∈ events, ∃ b, dedup it = .ok b) :
    trackBatchEvents dedup write events =
      Except.ok { success := true,
                  tracked := countWritten dedup write events,
                  skippedDuplicates := countSkipped dedup write events,
                  total := events.length } := by
  have hlen : ¬ events.length = 0 := by
    simpa [List.length_eq_zero] using hne
  simp only [trackBatchEvents, hlen, if_false, runBatch_ok dedup write events h]

/-- Witness for the amended C2: a three-item batch in which the click
write fails still yields a successful response tracking the other two
items. -/
theorem batch_isolates_write_failures_witness :
    (([⟨EventType.view, some 1⟩, ⟨EventType.click, some 2⟩,
       ⟨EventType.purchase, some 3⟩] : List BatchItem) ≠ []) ∧
    trackBatchEvents dedupNeverDup writeFailsClicks
        [⟨EventType.view, some 1⟩, ⟨EventType.click, some 2⟩,
         ⟨EventType.purchase, some 3⟩] =
      Except.ok { success := true, tracked := 2, skippedDuplicates := 0,
                  total := 3 } :=
  ⟨by decide,
   batch_isolates_write_failures dedupNeverDup writeFailsClicks
     [⟨EventType.view, some 1⟩, ⟨EventType.click, some 2⟩,
      ⟨EventType.purchase, some 3⟩] (by decide)
     (fun it _ => ⟨false, rfl⟩)⟩

/-- C3: the segment is assigned by the first matching rule of the fixed
decision table, in the exact source priority order (each row applies
only when every earlier condition failed); consequently `rfmScore = 13`
always gives Champions, `rfmScore = 12` with `recencyScore = 4` gives
Loyal Customers, and `rfmScore = 12` with `recencyScore = 3` never
gives Loyal Customers. -/
theorem segment_decision_table (r f m : ℤ) :
    (r + f + m ≥ 13 → assignSegment (r + f + m) r f m = .champions) ∧
    (¬(r + f + m ≥ 13) → r + f + m ≥ 10 ∧ r ≥ 4 →
      assignSegment (r + f + m) r f m = .loyalCustomers) ∧
    (¬(r + f + m ≥ 13) → ¬(r + f + m ≥ 10 ∧ r ≥ 4) → f ≥ 4 →
      assignSegment (r + f + m) r f m = .potentialLoyalists) ∧
    (¬(r + f + m ≥ 13) → ¬(r + f + m ≥ 10 ∧ r ≥ 4) → ¬(f ≥ 4) →
      r ≥ 4 ∧ f ≤ 2 → assignSegment (r + f + m) r f m = .newCustomers) ∧
    (¬(r + f + m ≥ 13) → ¬(r + f + m ≥ 10 ∧ r ≥ 4) → ¬(f ≥ 4) →
      ¬(r ≥ 4 ∧ f ≤ 2) → r ≤ 2 ∧ f ≥ 3 →
      assignSegment (r + f + m) r f m = .atRisk) ∧
    (¬(r + f + m ≥ 13) → ¬(r + f + m ≥ 10 ∧ r ≥ 4) → ¬(f ≥ 4) →
      ¬(r ≥ 4 ∧ f ≤ 2) → ¬(r ≤ 2 ∧ f ≥ 3) → r ≤ 2 ∧ m ≥ 3 →
      assignSegment (r + f + m) r f m = .cantLoseThem) ∧
    (¬(r + f + m ≥ 13) → ¬(r + f + m ≥ 10 ∧ r ≥ 4) → ¬(f ≥ 4) →
      ¬(r ≥ 4 ∧ f ≤ 2) → ¬(r ≤ 2 ∧ f ≥ 3) → ¬(r ≤ 2 ∧ m ≥ 3) → r ≤ 2 →
      assignSegment (r + f + m) r f m = .hibernating) ∧
    (¬(r + f + m ≥ 13) → ¬(r + f + m ≥ 10 ∧ r ≥ 4) → ¬(f ≥ 4) →
      ¬(r ≥ 4 ∧ f ≤ 2) → ¬(r ≤ 2 ∧ f ≥ 3) → ¬(r ≤ 2 ∧ m ≥ 3) → ¬(r ≤ 2) →
      assignSegment (r + f + m) r f m = .needAttention) ∧
    (r + f + m = 13 → assignSegment (r + f + m) r f m = .champions) ∧
    (r + f + m = 12 → r = 4 →
      assignSegment (r + f + m) r f m = .loyalCustomers) ∧
    (r + f + m = 12 → r = 3 →
      assignSegment (r + f + m) r f m ≠ .loyalCustomers) := by
  refine ⟨?_, ?_, ?_, ?_, ?_, ?_, ?_, ?_, ?_, ?_, ?_⟩
  · intro h1
    simp only [assignSegment, if_pos h1]
  · intro h1 h2
    simp only [assignSegment, if_neg h1, if_pos h2]
  · intro h1 h2 h3
    simp only [assignSegment, if_neg h1, if_neg h2, if_pos h3]
  · intro h1 h2 h3 h4
    simp only [assignSegment, if_neg h1, if_neg h2, if_neg h3, if_pos h4]
  · intro h1 h2 h3 h4 h5
    simp only [assignSegment, if_neg h1, if_neg h2, if_neg h3, if_neg h4,
      if_pos h5]
  · intro h1 h2 h3 h4 h5 h6
    simp only [assignSegment, if_neg h1, if_neg h2, if_neg h3, if_neg h4,
      if_neg h5, if_pos h6]
  · intro h1 h2 h3 h4 h5 h6 h7
    simp only [assignSegment, if_neg h1, if_neg h2, if_neg h3, if_neg h4,
      if_neg h5, if_neg h6, if_pos h7]
  · intro h1 h2 h3 h4 h5 h6 h7
    simp only [assignSegment, if_neg h1, if_neg h2, if_neg h3, if_neg h4,
      if_neg h5, if_neg h6, if_neg h7]
  · intro h
    simp only [assignSegment, if_pos (by omega : r + f + m ≥ 13)]
  · intro h12 hr4
    simp only [assignSegment, if_neg (by omega : ¬(r + f + m ≥ 13)),
      if_pos (by omega : r + f + m ≥ 10 ∧ r ≥ 4)]
  · intro h12 hr3
    simp only [assignSegment, if_neg (by omega : ¬(r + f + m ≥ 13)),
      if_neg (by omega : ¬(r + f + m ≥ 10 ∧ r ≥ 4))]
    split_ifs <;> decide

/-- Witness for C3 at concrete sub-scores. -/
theorem segment_decision_table_witness :
    ((4 : ℤ) + 4 + 5 = 13 → assignSegment (4 + 4 + 5) 4 4 5 = .champions) ∧
    assignSegment ((4 : ℤ) + 4 + 5) 4 4 5 = .champions ∧
    assignSegment ((3 : ℤ) + 4 + 5) 3 4 5 ≠ .loyalCustomers :=
  ⟨(segment_decision_table 4 4 5).2.2.2.2.2.2.2.2.1,
   (segment_decision_table 4 4 5).2.2.2.2.2.2.2.2.1 (by decide),
   (segment_decision_table 3 4 5).2.2.2.2.2.2.2.2.2.2 (by decide) (by decide)⟩

/-- Helper: the source's frequency divisor is the plain population
maximum floored at 1. -/
theorem maxFrequencyOf_eq (l : List CustomerAgg) :
    maxFrequencyOf l = max (plainMaxOrders l) 1 := by
  induction l with
  | nil => rfl
  | cons x xs ih =>
    simp only [maxFrequencyOf, plainMaxOrders, List.foldr_cons] at *
    rw [ih]
    omega

/-- Helper: the source's monetary divisor is the plain population
maximum floored at 1. -/
theorem maxMonetaryOf_eq (l : List CustomerAgg) :
    maxMonetaryOf l = max (plainMaxSpent l) 1 := by
  induction l with
  | nil => simp [maxMonetaryOf, plainMaxSpent]
  | cons x xs ih =>
    simp only [maxMonetaryOf, plainMaxSpent, List.foldr_cons] at *
    rw [ih, max_assoc]

/-- Helper: each member's order count is bounded by the plain
population maximum. -/
theorem le_plainMaxOrders (l : List CustomerAgg) (c : CustomerAgg)
    (hc : c ∈ l) : c.totalOrders ≤ plainMaxOrders l := by
  induction l with
  | nil => cases hc
  | cons x xs ih =>
    rcases List.mem_cons.mp hc with h | h
    · subst h
      simp only [plainMaxOrders, List.foldr_cons]
      omega
    · have := ih h
      simp only [plainMaxOrders, List.foldr_cons] at *
      omega

/-- Helper: a clamp to the 1..5 band lands in the 1..5 band. -/
theorem clamp15_bounds (x : ℤ) : 1 ≤ max 1 (min 5 x) ∧ max 1 (min 5 x) ≤ 5 := by
  omega

/-- C4 counterexample: in a population whose largest total spend is
one half, the code divides by `Math.max(maxTotalSpent, 1) = 1` and
scores the top spender 3, while the claim's formula (divide by the
population maximum, replacing it by 1 only when it is zero) would score
them 5. -/
theorem monetary_divisor_counterexample :
    (scoreCustomer (maxFrequencyOf [⟨1, 1/2, 0⟩])
        (maxMonetaryOf [⟨1, 1/2, 0⟩]) ⟨1, 1/2, 0⟩).monetaryScore = 3 ∧
    monetaryScoreClaimed (1/2) (plainMaxSpent [⟨1, 1/2, 0⟩]) = 5 ∧
    ((3 : ℤ) ≠ 5) := by
  have h52 : jsCeil ((5 : ℚ) / 2) = 3 := by
    unfold jsCeil
    rw [Int.ceil_eq_iff]
    norm_num
  have h5 : jsCeil (5 : ℚ) = 5 := by
    simp [jsCeil]
  refine ⟨?_, ?_, by decide⟩
  · norm_num [scoreCustomer, monetaryScoreOf, maxMonetaryOf, plainMaxSpent,
      h52]
  · norm_num [monetaryScoreClaimed, plainMaxSpent, h5]

/-- C4 (amended): for every customer of a population in which each
member has at least one qualifying order, the code computes
`recencyScore = clamp(5 − floor(days/365·5), 1, 5)`,
`frequencyScore = clamp(ceil(orders/maxOrders·5), 1, 5)` against the
plain population maximum, and
`monetaryScore = clamp(ceil(spent/max(maxSpent, 1)·5), 1, 5)` — the
monetary divisor is the population maximum floored at 1 (in particular
a maximum of zero becomes 1); `rfmScore` is the sum of the three
sub-scores and always lies between 3 and 15. -/
theorem rfm_scoring (customers : List CustomerAgg) (c : CustomerAgg)
    (horders : ∀ x ∈ customers, 1 ≤ x.totalOrders) (hc : c ∈ customers) :
    (scoreCustomer (maxFrequencyOf customers) (maxMonetaryOf customers)
        c).recencyScore =
      max 1 (min 5 (5 - jsFloor ((c.daysSinceLastOrder : ℚ) / 365 * 5))) ∧
    (scoreCustomer (maxFrequencyOf customers) (maxMonetaryOf customers)
        c).frequencyScore =
      max 1 (min 5 (jsCeil ((c.totalOrders : ℚ) /
        ((plainMaxOrders customers : ℤ) : ℚ) * 5))) ∧
    (scoreCustomer (maxFrequencyOf customers) (maxMonetaryOf customers)
        c).monetaryScore =
      max 1 (min 5 (jsCeil (c.totalSpent /
        (max (plainMaxSpent customers) 1) * 5))) ∧
    (scoreCustomer (maxFrequencyOf customers) (maxMonetaryOf customers)
        c).rfmScore =
      (scoreCustomer (maxFrequencyOf customers) (maxMonetaryOf customers)
        c).recencyScore +
      (scoreCustomer (maxFrequencyOf customers) (maxMonetaryOf customers)
        c).frequencyScore +
      (scoreCustomer (maxFrequencyOf customers) (maxMonetaryOf customers)
        c).monetaryScore ∧
    3 ≤ (scoreCustomer (maxFrequencyOf customers) (maxMonetaryOf customers)
        c).rfmScore ∧
    (scoreCustomer (maxFrequencyOf customers) (maxMonetaryOf customers)
        c).rfmScore ≤ 15 ∧
    (scoreCustomer (maxFrequencyOf customers) (maxMonetaryOf customers)
        c).segment =
      assignSegment
        ((scoreCustomer (maxFrequencyOf customers) (maxMonetaryOf customers)
          c).rfmScore)
        ((scoreCustomer (maxFrequencyOf customers) (maxMonetaryOf customers)
          c).recencyScore)
        ((scoreCustomer (maxFrequencyOf customers) (maxMonetaryOf customers)
          c).frequencyScore)
        ((scoreCustomer (maxFrequencyOf customers) (maxMonetaryOf customers)
          c).monetaryScore) := by
  have hfreq : maxFrequencyOf customers = plainMaxOrders customers := by
    rw [maxFrequencyOf_eq]
    have h1 := horders c hc
    have h2 := le_plainMaxOrders customers c hc
    omega
  refine ⟨rfl, ?_, ?_, rfl, ?_, ?_, rfl⟩
  · simp only [scoreCustomer, frequencyScoreOf, hfreq]
  · simp only [scoreCustomer, monetaryScoreOf, maxMonetaryOf_eq]
  · have hr := clamp15_bounds (5 - jsFloor ((c.daysSinceLastOrder : ℚ) / 365 * 5))
    have hf := clamp15_bounds (jsCeil ((c.totalOrders : ℚ) /
      ((maxFrequencyOf customers : ℤ) : ℚ) * 5))
    have hm := clamp15_bounds (jsCeil (c.totalSpent /
      (maxMonetaryOf customers) * 5))
    simp only [scoreCustomer, recencyScoreOf, frequencyScoreOf,
      monetaryScoreOf]
    omega
  · have hr := clamp15_bounds (5 - jsFloor ((c.daysSinceLastOrder : ℚ) / 365 * 5))
    have hf := clamp15_bounds (jsCeil ((c.totalOrders : ℚ) /
      ((maxFrequencyOf customers : ℤ) : ℚ) * 5))
    have hm := clamp15_bounds (jsCeil (c.totalSpent /
      (maxMonetaryOf customers) * 5))
    simp only [scoreCustomer, recencyScoreOf, frequencyScoreOf,
      monetaryScoreOf]
    omega

/-- Witness for the amended C4 at a concrete two-customer population. -/
theorem rfm_scoring_witness :
    (∀ x ∈ [(⟨2, 100, 10⟩ : CustomerAgg), ⟨5, 400, 500⟩],
      1 ≤ x.totalOrders) ∧
    3 ≤ (scoreCustomer (maxFrequencyOf [(⟨2, 100, 10⟩ : CustomerAgg), ⟨5, 400, 500⟩])
        (maxMonetaryOf [(⟨2, 100, 10⟩ : CustomerAgg), ⟨5, 400, 500⟩])
        ⟨2, 100, 10⟩).rfmScore :=
  ⟨by decide,
   (rfm_scoring [⟨2, 100, 10⟩, ⟨5, 400, 500⟩] ⟨2, 100, 10⟩ (by decide)
     (by simp)).2.2.2.2.1⟩

/-- Helper: clamping at zero before or after `Math.round` is the same
operation, so the source's `Math.max(0, Math.round(x))` equals the
spec's `round(max(0, x))`. -/
theorem jsRound_max_zero (x : ℚ) : max 0 (jsRound x) = jsRound (max 0 x) := by
  rcases le_total 0 x with h | h
  · rw [max_eq_right h, max_eq_right]
    unfold jsRound
    rw [Int.le_floor]
    push_cast
    linarith
  · have h0 : jsRound 0 = 0 := by
      unfold jsRound
      norm_num
    rw [max_eq_left h, h0, max_eq_left]
    calc jsRound x ≤ jsRound 0 := by
          unfold jsRound
          exact Int.floor_le_floor (by linarith)
      _ = 0 := h0

/-- C5: with fewer than 3 distinct sale days the forecaster emits an
`insufficient_data` record with confidence 0 and no curve; otherwise it
emits a 14-day curve in which day `i` predicts
`round(max(0, avgDailySales · (1 + trendPct/100 · 0.1)^(i/7) ·
weekendFactor))` units (weekend factor 0.7 on Saturday and Sunday, 1
otherwise), revenue is the predicted quantity times the current unit
price, and every predicted quantity is a non-negative integer. -/
theorem forecast_shape (powf : ℚ → ℚ → ℚ) (sqrtf : ℚ → ℚ) (todayDow : ℤ)
    (p : ProductInfo) (sales : List DailySale) :
    (sales.length < 3 →
      (forecastProduct powf sqrtf todayDow p sales).trend =
          TrendLabel.insufficient_data ∧
        (forecastProduct powf sqrtf todayDow p sales).confidence = 0 ∧
        (forecastProduct powf sqrtf todayDow p sales).forecast = none) ∧
    (3 ≤ sales.length →
      ∃ days,
        (forecastProduct powf sqrtf todayDow p sales).forecast = some days ∧
        days.length = 14 ∧
        ∀ k (hk : k < days.length),
          (days.get ⟨k, hk⟩).predictedQuantity =
            jsRound (max 0 (avgDailySalesOf sales *
              powf (1 + forecastTrendPctOf sales / 100 * (1 / 10))
                (((k + 1 : ℕ) : ℚ) / 7) *
              weekendFactorOf todayDow (k + 1))) ∧
          (days.get ⟨k, hk⟩).predictedRevenue =
            ((days.get ⟨k, hk⟩).predictedQuantity : ℚ) * p.price ∧
          0 ≤ (days.get ⟨k, hk⟩).predictedQuantity) := by
  constructor
  · intro h
    simp [forecastProduct, h]
  · intro h
    have h3 : ¬ sales.length < 3 := by omega
    refine ⟨forecastCurve powf todayDow p.price (avgDailySalesOf sales)
      (trendMultiplierOf sales), ?_, by simp [forecastCurve], ?_⟩
    · simp [forecastProduct, h3]
    · intro k hk
      have hget :
          (forecastCurve powf todayDow p.price (avgDailySalesOf sales)
            (trendMultiplierOf sales)).get ⟨k, hk⟩ =
          mkForecastDay powf todayDow p.price (avgDailySalesOf sales)
            (trendMultiplierOf sales) (k + 1) := by
        simp [forecastCurve]
      rw [hget]
      refine ⟨?_, rfl, ?_⟩
      · simp only [mkForecastDay, trendMultiplierOf]
        exact jsRound_max_zero _
      · exact le_max_left 0 _

/-- Constant abstraction of `Math.pow` for concrete evaluation. -/
def powOne : ℚ → ℚ → ℚ := fun _ _ => 1

/-- Constant abstraction of `Math.sqrt` for concrete evaluation. -/
def sqrtZero : ℚ → ℚ := fun _ => 0

/-- Witness for C5: a 1-day history hits the insufficient-data branch,
a 3-day history yields a 14-entry curve. -/
theorem forecast_shape_witness :
    (([⟨2, 20⟩] : List DailySale).length < 3 ∧
      (forecastProduct powOne sqrtZero 4 ⟨10, 50⟩ [⟨2, 20⟩]).trend =
          TrendLabel.insufficient_data ∧
      (forecastProduct powOne sqrtZero 4 ⟨10, 50⟩ [⟨2, 20⟩]).confidence = 0 ∧
      (forecastProduct powOne sqrtZero 4 ⟨10, 50⟩ [⟨2, 20⟩]).forecast =
        none) ∧
    (3 ≤ ([⟨1, 10⟩, ⟨2, 20⟩, ⟨3, 30⟩] : List DailySale).length ∧
      ∃ days,
        (forecastProduct powOne sqrtZero 4 ⟨10, 50⟩
          [⟨1, 10⟩, ⟨2, 20⟩, ⟨3, 30⟩]).forecast = some days ∧
        days.length = 14) :=
  ⟨⟨by decide,
    (forecast_shape powOne sqrtZero 4 ⟨10, 50⟩ [⟨2, 20⟩]).1 (by decide)⟩,
   by decide,
   by
     obtain ⟨days, h1, h2, -⟩ :=
       (forecast_shape powOne sqrtZero 4 ⟨10, 50⟩
         [⟨1, 10⟩, ⟨2, 20⟩, ⟨3, 30⟩]).2 (by decide)
     exact ⟨days, h1, h2⟩⟩

/-- Helper: rule 1 adjusts by at least 5 percent. -/
theorem rule1Adjustment_ge (inp : PricingInput) : 5 ≤ rule1Adjustment inp :=
  le_min (by norm_num) (le_max_left 5 _)

/-- Helper: rule 2 adjusts by at most minus 5 percent. -/
theorem rule2Adjustment_le (inp : PricingInput) : rule2Adjustment inp ≤ -5 := by
  unfold rule2Adjustment
  have h : (5 : ℚ) ≤ min 20 (max 5 (|pricingTrendPctOf inp| / 4)) :=
    le_min (by norm_num) (le_max_left 5 _)
  linarith

/-- Helper: rule 1's adjustment is nonzero. -/
theorem rule1Adjustment_ne (inp : PricingInput) : rule1Adjustment inp ≠ 0 := by
  have h := rule1Adjustment_ge inp
  intro h0
  rw [h0] at h
  norm_num at h

/-- Helper: rule 2's adjustment is nonzero. -/
theorem rule2Adjustment_ne (inp : PricingInput) : rule2Adjustment inp ≠ 0 := by
  have h := rule2Adjustment_le inp
  intro h0
  rw [h0] at h
  norm_num at h

/-- C6 counterexample: for a product priced 10.5 on which only rule 4
fires (conversion 10 percent, demand high, 30 days of stock), the code
stores `potentialRevenue = Math.round((11 − 10.5) × 1) = 1`, while the
claim's unrounded formula `(recommendedPrice − currentPrice) ×
last-30-days units` gives 0.5 — the claim omits the rounding. -/
theorem pricing_revenue_rounding_counterexample :
    (priceSuggestionFor ⟨21/2, 1, 10, 1, 1, 0⟩).adjustmentPercentage = 5 ∧
    (priceSuggestionFor ⟨21/2, 1, 10, 1, 1, 0⟩).recommendedPrice = 11 ∧
    (priceSuggestionFor ⟨21/2, 1, 10, 1, 1, 0⟩).potentialRevenue = 1 ∧
    ((11 : ℚ) - 21/2) * 1 = 1/2 ∧ ((1 : ℚ) ≠ 1/2) := by
  have hd : pricingDemandOf 1 0 = (DemandTrend.high, 100) := by
    norm_num [pricingDemandOf]
  have hc1 : ¬ pricingRule1Cond ⟨21/2, 1, 10, 1, 1, 0⟩ := by
    simp only [pricingRule1Cond, pricingDemandTrendOf, daysOfStockOf,
      pricingAvgDailySalesOf, hd]
    norm_num
  have hc2 : ¬ pricingRule2Cond ⟨21/2, 1, 10, 1, 1, 0⟩ := by
    simp only [pricingRule2Cond, pricingDemandTrendOf, hd]
    rintro ⟨h, -⟩
    exact DemandTrend.noConfusion h
  have hc3 : ¬ pricingRule3Cond ⟨21/2, 1, 10, 1, 1, 0⟩ := by
    norm_num [pricingRule3Cond]
  have hc4 : pricingRule4Cond ⟨21/2, 1, 10, 1, 1, 0⟩ := by
    simp only [pricingRule4Cond, conversionRateOf, pricingDemandTrendOf, hd]
    refine ⟨by norm_num, fun h => DemandTrend.noConfusion h⟩
  have hfl1 : (⌊(441 : ℚ) / 40 + 1 / 2⌋ : ℤ) = 11 := by
    rw [Int.floor_eq_iff]
    norm_num
  have hround : jsRound ((441 : ℚ) / 40) = 11 := by
    unfold jsRound
    exact hfl1
  refine ⟨?_, ?_, ?_, by norm_num, by norm_num⟩
  · simp only [priceSuggestionFor, if_neg hc1, if_neg hc2, if_neg hc3,
      if_pos hc4]
  · simp only [priceSuggestionFor, if_neg hc1, if_neg hc2, if_neg hc3,
      if_pos hc4]
    norm_num [jsRound, hfl1]
  · simp only [priceSuggestionFor, if_neg hc1, if_neg hc2, if_neg hc3,
      if_pos hc4]
    norm_num [hround]
    norm_num [jsRound]

/-- C6 (amended): the five pricing rules are evaluated in the exact
stated priority order and at most one fires (each row applies only when
all earlier conditions failed); a product meeting no rule receives
adjustment 0, a recommended price equal to its current price and
potential revenue 0; a product with a nonzero adjustment receives
`recommendedPrice = round(currentPrice · (1 + adjustment/100))` and
`potentialRevenue = round((recommendedPrice − currentPrice) ·
last-30-days units sold)`. -/
theorem pricing_rule_chain (inp : PricingInput) :
    (pricingRule1Cond inp →
      (priceSuggestionFor inp).reason = PriceReason.highDemandLimitedStock ∧
      (priceSuggestionFor inp).priority = PriceTier.high ∧
      (priceSuggestionFor inp).adjustmentPercentage = rule1Adjustment inp) ∧
    (¬ pricingRule1Cond inp → pricingRule2Cond inp →
      (priceSuggestionFor inp).reason = PriceReason.lowDemandExcessInventory ∧
      (priceSuggestionFor inp).priority = PriceTier.high ∧
      (priceSuggestionFor inp).adjustmentPercentage = rule2Adjustment inp) ∧
    (¬ pricingRule1Cond inp → ¬ pricingRule2Cond inp → pricingRule3Cond inp →
      (priceSuggestionFor inp).reason = PriceReason.lowConversionRate ∧
      (priceSuggestionFor inp).priority = PriceTier.medium ∧
      (priceSuggestionFor inp).adjustmentPercentage = -10) ∧
    (¬ pricingRule1Cond inp → ¬ pricingRule2Cond inp →
      ¬ pricingRule3Cond inp → pricingRule4Cond inp →
      (priceSuggestionFor inp).reason = PriceReason.strongConversionRate ∧
      (priceSuggestionFor inp).priority = PriceTier.low ∧
      (priceSuggestionFor inp).adjustmentPercentage = 5) ∧
    (¬ pricingRule1Cond inp → ¬ pricingRule2Cond inp →
      ¬ pricingRule3Cond inp → ¬ pricingRule4Cond inp → pricingRule5Cond inp →
      (priceSuggestionFor inp).reason = PriceReason.criticalLowStock ∧
      (priceSuggestionFor inp).priority = PriceTier.high ∧
      (priceSuggestionFor inp).adjustmentPercentage = 10) ∧
    (¬ pricingRule1Cond inp → ¬ pricingRule2Cond inp →
      ¬ pricingRule3Cond inp → ¬ pricingRule4Cond inp →
      ¬ pricingRule5Cond inp →
      (priceSuggestionFor inp).adjustmentPercentage = 0 ∧
      (priceSuggestionFor inp).recommendedPrice = inp.price ∧
      (priceSuggestionFor inp).potentialRevenue = 0 ∧
      (priceSuggestionFor inp).reason = PriceReason.noChange) ∧
    ((priceSuggestionFor inp).adjustmentPercentage ≠ 0 →
      (priceSuggestionFor inp).recommendedPrice =
        (jsRound (inp.price *
          (1 + (priceSuggestionFor inp).adjustmentPercentage / 100)) : ℚ) ∧
      (priceSuggestionFor inp).potentialRevenue =
        (jsRound (((priceSuggestionFor inp).recommendedPrice - inp.price) *
          inp.lastThirtyDaysSales) : ℚ)) := by
  by_cases h1 : pricingRule1Cond inp
  · refine ⟨fun _ => ⟨?_, ?_, ?_⟩, fun h _ => absurd h1 h,
      fun h _ _ => absurd h1 h, fun h _ _ _ => absurd h1 h,
      fun h _ _ _ _ => absurd h1 h, fun h _ _ _ _ => absurd h1 h,
      fun _ => ⟨?_, ?_⟩⟩ <;>
      simp [priceSuggestionFor, if_pos h1, rule1Adjustment_ne inp]
  · by_cases h2 : pricingRule2Cond inp
    · refine ⟨fun h => absurd h h1, fun _ _ => ⟨?_, ?_, ?_⟩,
        fun _ h _ => absurd h2 h, fun _ h _ _ => absurd h2 h,
        fun _ h _ _ _ => absurd h2 h, fun _ h _ _ _ => absurd h2 h,
        fun _ => ⟨?_, ?_⟩⟩ <;>
        simp [priceSuggestionFor, if_neg h1, if_pos h2,
          rule2Adjustment_ne inp]
    · by_cases h3 : pricingRule3Cond inp
      · refine ⟨fun h => absurd h h1, fun _ h => absurd h h2,
          fun _ _ _ => ⟨?_, ?_, ?_⟩, fun _ _ h _ => absurd h3 h,
          fun _ _ h _ _ => absurd h3 h, fun _ _ h _ _ => absurd h3 h,
          fun _ => ⟨?_, ?_⟩⟩ <;>
          · simp [priceSuggestionFor, if_neg h1, if_neg h2, if_pos h3]
            try norm_num
      · by_cases h4 : pricingRule4Cond inp
        · refine ⟨fun h => absurd h h1, fun _ h => absurd h h2,
            fun _ _ h => absurd h h3, fun _ _ _ _ => ⟨?_, ?_, ?_⟩,
            fun _ _ _ h _ => absurd h4 h, fun _ _ _ h _ => absurd h4 h,
            fun _ => ⟨?_, ?_⟩⟩ <;>
            · simp [priceSuggestionFor, if_neg h1, if_neg h2, if_neg h3,
                if_pos h4]
              try norm_num
        · by_cases h5 : pricingRule5Cond inp
          · refine ⟨fun h => absurd h h1, fun _ h => absurd h h2,
              fun _ _ h => absurd h h3, fun _ _ _ h => absurd h h4,
              fun _ _ _ _ _ => ⟨?_, ?_, ?_⟩, fun _ _ _ _ h => absurd h5 h,
              fun _ => ⟨?_, ?_⟩⟩ <;>
              · simp [priceSuggestionFor, if_neg h1, if_neg h2, if_neg h3,
                  if_neg h4, if_pos h5]
                try norm_num
          · refine ⟨fun h => absurd h h1, fun _ h => absurd h h2,
              fun _ _ h => absurd h h3, fun _ _ _ h => absurd h h4,
              fun _ _ _ _ h => absurd h h5,
              fun _ _ _ _ _ => ⟨?_, ?_, ?_, ?_⟩, fun h => ?_⟩ <;>
              · simp [priceSuggestionFor, if_neg h1, if_neg h2, if_neg h3,
                  if_neg h4, if_neg h5] at *

/-- Witness for the amended C6: the no-rule default at a product with
no sales and no views. -/
theorem pricing_rule_chain_witness :
    (¬ pricingRule1Cond ⟨10, 100, 0, 0, 0, 0⟩) ∧
    ((priceSuggestionFor ⟨10, 100, 0, 0, 0, 0⟩).adjustmentPercentage = 0 ∧
     (priceSuggestionFor ⟨10, 100, 0, 0, 0, 0⟩).recommendedPrice = 10 ∧
     (priceSuggestionFor ⟨10, 100, 0, 0, 0, 0⟩).potentialRevenue = 0 ∧
     (priceSuggestionFor ⟨10, 100, 0, 0, 0, 0⟩).reason =
       PriceReason.noChange) := by
  have hd : pricingDemandOf 0 0 = (DemandTrend.stable, 0) := by
    norm_num [pricingDemandOf]
  have hc1 : ¬ pricingRule1Cond ⟨10, 100, 0, 0, 0, 0⟩ := by
    simp only [pricingRule1Cond, pricingDemandTrendOf, hd]
    rintro ⟨h, -⟩
    exact DemandTrend.noConfusion h
  have hc2 : ¬ pricingRule2Cond ⟨10, 100, 0, 0, 0, 0⟩ := by
    simp only [pricingRule2Cond, pricingDemandTrendOf, hd]
    rintro ⟨h, -⟩
    exact DemandTrend.noConfusion h
  have hc3 : ¬ pricingRule3Cond ⟨10, 100, 0, 0, 0, 0⟩ := by
    norm_num [pricingRule3Cond]
  have hc4 : ¬ pricingRule4Cond ⟨10, 100, 0, 0, 0, 0⟩ := by
    norm_num [pricingRule4Cond, conversionRateOf]
  have hc5 : ¬ pricingRule5Cond ⟨10, 100, 0, 0, 0, 0⟩ := by
    norm_num [pricingRule5Cond, pricingAvgDailySalesOf]
  exact ⟨hc1,
    (pricing_rule_chain ⟨10, 100, 0, 0, 0, 0⟩).2.2.2.2.2.1 hc1 hc2 hc3 hc4 hc5⟩

/-- C7 counterexample: with one unit sold in the last 30 days and none
in the prior 30 days, the Pricing Advisor classifies demand as high
with trend 100 percent, while the forecaster's convention asserted by
the claim (treat the missing prior mean as the recent mean) yields
stable with trend 0 — the two components do not share the
missing-prior-data convention. -/
theorem pricing_trend_convention_counterexample :
    pricingDemandOf 1 0 = (DemandTrend.high, 100) ∧
    claimedPricingDemandOf 1 0 = (DemandTrend.stable, 0) ∧
    DemandTrend.high ≠ DemandTrend.stable ∧ ((100 : ℚ) ≠ 0) := by
  refine ⟨?_, ?_, fun h => DemandTrend.noConfusion h, by norm_num⟩
  · norm_num [pricingDemandOf]
  · norm_num [claimedPricingDemandOf, claimedPricingTrendPct]

/-- C7 (amended): when the prior 30-day window has positive sales the
Pricing Advisor computes `(recent − prior) / prior × 100` — the same
before/after comparison as the Demand Forecaster — and classifies
demand as high above 20, low below −20, else stable; but when the prior
window is empty it departs from the forecaster's convention: positive
recent sales give demand high with trend 100, otherwise stable with
trend 0. -/
theorem pricing_trend_convention (recent prior : ℚ) :
    (prior > 0 →
      (pricingDemandOf recent prior).2 = (recent - prior) / prior * 100 ∧
      (pricingDemandOf recent prior).2 =
        forecastComparisonPct recent (some prior) ∧
      (pricingDemandOf recent prior).1 =
        (if (recent - prior) / prior * 100 > 20 then DemandTrend.high
         else if (recent - prior) / prior * 100 < -20 then DemandTrend.low
         else DemandTrend.stable)) ∧
    (¬ prior > 0 →
      (recent > 0 → pricingDemandOf recent prior = (DemandTrend.high, 100)) ∧
      (¬ recent > 0 →
        pricingDemandOf recent prior = (DemandTrend.stable, 0))) := by
  constructor
  · intro hp
    refine ⟨?_, ?_, ?_⟩
    · simp [pricingDemandOf, hp]
    · simp [pricingDemandOf, forecastComparisonPct, hp]
    · simp [pricingDemandOf, hp]
  · intro hp
    refine ⟨?_, ?_⟩
    · intro hr
      simp [pricingDemandOf, hp, hr]
    · intro hr
      simp [pricingDemandOf, hp, hr]

/-- Witness for the amended C7 at concrete window sums. -/
theorem pricing_trend_convention_witness :
    ((4 : ℚ) > 0) ∧
    (pricingDemandOf 5 4).2 = forecastComparisonPct 5 (some 4) :=
  ⟨by norm_num, ((pricing_trend_convention 5 4).1 (by norm_num)).2.1⟩

/-- C8 counterexample: when both the personalized computation and the
popularity query fail, the `forYou` request surfaces a hard failure —
the popularity fallback cannot be returned, contrary to the claim that
a recommendation request never fails hard. -/
theorem recommendations_hard_failure_counterexample :
    getRecommendations RecType.forYou (Except.ok (0 : ℕ)) (Except.ok 0)
        (Except.error "personalized computation failed")
        (Except.error "popular query failed") =
      RecResponse.failure "popular query failed" ∧
    RecResponse.failure "popular query failed" ≠
      RecResponse.success RecKind.popularFallback (0 : ℕ) := by
  exact ⟨rfl, fun h => RecResponse.noConfusion h⟩

/-- C8 (amended): an error in the personalized computation is recovered
whenever the popularity query succeeds — the service's internal catch
returns the popularity list, which the controller reports as a
successful (personalized-typed) response; the request surfaces a hard
failure only when the popularity query itself also fails. -/
theorem recommendations_fallback {R : Type} (tq sq : Except String R)
    (core popular : Except String R) :
    (∀ e f, core = Except.error e → popular = Except.ok f →
      getRecommendations RecType.forYou tq sq core popular =
        RecResponse.success RecKind.personalized f) ∧
    (∀ e e2, core = Except.error e → popular = Except.error e2 →
      getRecommendations RecType.forYou tq sq core popular =
        RecResponse.failure e2) ∧
    (∀ r, core = Except.ok r →
      getRecommendations RecType.forYou tq sq core popular =
        RecResponse.success RecKind.personalized r) := by
  refine ⟨?_, ?_, ?_⟩
  · intro e f hc hp
    subst hc
    subst hp
    rfl
  · intro e e2 hc hp
    subst hc
    subst hp
    rfl
  · intro r hc
    subst hc
    rfl

/-- Witness for the amended C8: the popularity list 7 is returned as a
success when the personalized computation fails. -/
theorem recommendations_fallback_witness :
    ((Except.error "db down" : Except String ℕ) = Except.error "db down") ∧
    getRecommendations RecType.forYou (Except.ok 0) (Except.ok 0)
        (Except.error "db down") (Except.ok 7) =
      RecResponse.success RecKind.personalized 7 :=
  ⟨rfl,
   (recommendations_fallback (Except.ok 0) (Except.ok 0)
     (Except.error "db down") (Except.ok 7)).1 "db down" 7 rfl rfl⟩
